import Mathlib

/-!
# hostapd HIDL bridge (`hostapd/hidl/1.0/hidl.cpp`)

A shallow embedding of the HIDL glue of hostapd.  The file keeps three
C-style static globals (`hidl_fd`, `service`, `vendor_service`) and talks to
three outside parties: the binder runtime (`IPCThreadState`, `ProcessState`),
hostapd's event loop (`eloop`) and the service objects it constructs.

The globals become an explicit state record, the table behind the
`interfaces` pointer becomes a value that is passed in and handed back, and
every call that leaves the file is appended to a trace.  What an outside call
answers is read from an environment record, so that a theorem quantified over
the environment covers every behaviour of the outside parties.

The two preprocessor switches `ARCH_ARM_32` and `CONFIG_USE_VENDOR_HIDL` are
boolean fields of `Config`.
-/

namespace HostapdHidl

/-! ## Data model -/

/-- The two preprocessor switches the file is compiled under. -/
structure Config where
  ARCH_ARM_32 : Bool
  CONFIG_USE_VENDOR_HIDL : Bool
  deriving DecidableEq, Repr

/-- Identity of a heap object behind an `android::sp<...>`; a null `sp` is
`none : Option Handle`. -/
abbrev Handle := Nat

/-- The table behind `struct hapd_interfaces *interfaces`.  The only field the
file reads or writes is `hidl_service_name` (a `char *`, `none` for `NULL`);
all remaining fields are carried along in `others`. -/
structure hapd_interfaces where
  hidl_service_name : Option String
  others : List Int
  deriving DecidableEq, Repr

/-- The static globals of the file: `hidl_fd`, `service`, `vendor_service`. -/
structure ModState where
  hidl_fd : Int
  service : Option Handle
  vendor_service : Option Handle
  deriving DecidableEq, Repr

/-- The globals as the C++ initialisers leave them: `hidl_fd = -1` and
default-constructed (null) strong pointers. -/
def ModState.initial : ModState :=
  { hidl_fd := -1, service := none, vendor_service := none }

/-- Levels of `wpa_printf` used in the file. -/
inductive LogLevel where
  | MSG_DEBUG
  | MSG_INFO
  | MSG_ERROR
  deriving DecidableEq, Repr

/-- A variadic argument of `wpa_printf`. -/
inductive LogArg where
  | int (v : Int)
  | str (s : String)
  deriving DecidableEq, Repr

/-- Calls that leave the file, in the order they are made.  A call through
`IPCThreadState::self()` is recorded as the method called.  Pointer arguments
that are passed on untouched (the handler and the `interfaces` context of
`eloop_register_read_sock`, the `interfaces` argument of the constructors) are
not recorded. -/
inductive Event where
  | wpa_printf (level : LogLevel) (fmt : String) (args : List LogArg)
  | property_get_int32 (key : String) (default_value : Int)
  | initWithMmapSize (size : Nat)
  | disableBackgroundScheduling (disable : Bool)
  | setupPolling (fd_before : Int)
  | handlePolledCommands
  | eloop_register_read_sock (sock : Int)
  | eloop_unregister_read_sock (sock : Int)
  | shutdown
  | newHostapd
  | registerAsService (obj : Handle) (name : Option String)
  | newHostapdVendor
  | vendorRegisterAsService (obj : Handle)
  | os_free (ptr : Option String)
  | onStaConnected (obj : Handle) (addr : List Nat) (iface_name : String)
  | onStaDisconnected (obj : Handle) (addr : List Nat) (iface_name : String)
  deriving DecidableEq, Repr

/-- Status code `android::NO_ERROR` of the platform headers. -/
def NO_ERROR : Int := 0

/-- Answers of the outside parties during one run of `hostapd_hidl_init`.
`setupPolling` maps the value of `hidl_fd` before the call to its value after
the call (the runtime writes through the pointer, or leaves it alone). -/
structure InitEnv where
  property_get_int32 : Int
  setupPolling : Int → Int
  eloop_register_read_sock : Int
  newHostapd : Option Handle
  registerAsService : Option String → Int
  newHostapdVendor : Option Handle
  vendorRegisterAsService : Int

/-- Answers of the vendor service object to the two station callbacks. -/
structure NotifyEnv where
  onStaConnected : List Nat → String → Int
  onStaDisconnected : List Nat → String → Int

/-- What a function of the file leaves behind: its return value, the globals,
the interface table and the outside calls it made. -/
structure Outcome where
  ret : Int
  state : ModState
  interfaces : hapd_interfaces
  trace : List Event

/-! ## Event classes -/

/-- The event is an `IPCThreadState::setupPolling` call. -/
def Event.isSetupPolling : Event → Bool
  | .setupPolling _ => true
  | _ => false

/-- The event is an `eloop_register_read_sock` call. -/
def Event.isEloopRegister : Event → Bool
  | .eloop_register_read_sock _ => true
  | _ => false

/-- The event is the construction `new Hostapd(interfaces)`. -/
def Event.isNewHostapd : Event → Bool
  | .newHostapd => true
  | _ => false

/-- The event is a `registerAsService` call on the standard service. -/
def Event.isStdRegister : Event → Bool
  | .registerAsService _ _ => true
  | _ => false

/-- The event is the construction `new HostapdVendor(interfaces)`. -/
def Event.isNewHostapdVendor : Event → Bool
  | .newHostapdVendor => true
  | _ => false

/-- The event is the `registerAsService` call on the vendor service. -/
def Event.isVendorRegister : Event → Bool
  | .vendorRegisterAsService _ => true
  | _ => false

/-- The event is a construction of a service object (`new Hostapd`,
`new HostapdVendor`). -/
def Event.isConstruct (e : Event) : Bool :=
  e.isNewHostapd || e.isNewHostapdVendor

/-- The event is a `registerAsService` call on either service object. -/
def Event.isRegisterAsService (e : Event) : Bool :=
  e.isStdRegister || e.isVendorRegister

/-- The event is a method call on a service object. -/
def Event.isServiceCall : Event → Bool
  | .registerAsService _ _ => true
  | .vendorRegisterAsService _ => true
  | .onStaConnected _ _ _ => true
  | .onStaDisconnected _ _ _ => true
  | _ => false

/-- The event is a call into the binder runtime, the event loop or a service
object (everything except logging, property lookup and memory release). -/
def Event.isRuntimeCall : Event → Bool
  | .wpa_printf _ _ _ => false
  | .property_get_int32 _ _ => false
  | .os_free _ => false
  | _ => true

/-! ## The code -/

/-- Value of `DEFAULT_WIFISUPP_HW_BINDER_SIZE_KB`. -/
def DEFAULT_WIFISUPP_HW_BINDER_SIZE_KB : Nat := 4

/-- Width of `size_t` under `ARCH_ARM_32`. -/
def SIZE_T_MOD : Nat := 2 ^ 32

/-- `getHWBinderMmapSize` (lines 53-59), as a function of the `int32_t` that
`property_get_int32` returns.  The assignment to `size_t value` converts to
unsigned 32 bit, and `1024 * value` is an unsigned 32-bit product. -/
def getHWBinderMmapSize (p : Int) : Nat :=
  let value : Nat := (p % (SIZE_T_MOD : Int)).toNat
  let value : Nat := if value = 0 then DEFAULT_WIFISUPP_HW_BINDER_SIZE_KB else value
  (1024 * value) % SIZE_T_MOD

/-- `MAC2STR(a)` of hostapd's `common.h`: the six bytes `a[0] .. a[5]`.  A
buffer shorter than six bytes is outside the contract of the callers; the
missing bytes read as 0 here. -/
def MAC2STR (a : List Nat) : List LogArg :=
  (List.range 6).map (fun i => LogArg.int (a.getD i 0))

/-- `hostapd_hidl_sock_handler` (lines 45-49): drain the pending binder
commands; all three arguments are ignored. -/
def hostapd_hidl_sock_handler (_sock : Int) : List Event :=
  [Event.handlePolledCommands]

/-- `hostapd_hidl_deinit` (lines 108-120).  Clearing a strong pointer is
recorded as the handle becoming null. -/
def hostapd_hidl_deinit (cfg : Config) (s : ModState) (interfaces : hapd_interfaces) :
    ModState × hapd_interfaces × List Event :=
  let trace : List Event :=
    [ .wpa_printf .MSG_DEBUG "Deiniting hidl control" [],
      .eloop_unregister_read_sock s.hidl_fd,
      .shutdown,
      .os_free interfaces.hidl_service_name ]
  let s : ModState := { s with hidl_fd := -1 }
  let s : ModState := { s with service := none }
  let interfaces : hapd_interfaces := { interfaces with hidl_service_name := none }
  let s : ModState :=
    if cfg.CONFIG_USE_VENDOR_HIDL then { s with vendor_service := none } else s
  (s, interfaces, trace)

/-- The `err:` label of `hostapd_hidl_init` (lines 103-105): tear down, then
return -1. -/
def init_err (cfg : Config) (s : ModState) (interfaces : hapd_interfaces)
    (trace : List Event) : Outcome :=
  let r := hostapd_hidl_deinit cfg s interfaces
  { ret := -1, state := r.1, interfaces := r.2.1, trace := trace ++ r.2.2 }

/-- Lines 94-102 of `hostapd_hidl_init`: the vendor service, then `return 0`. -/
def init_vendor (cfg : Config) (env : InitEnv) (s : ModState)
    (interfaces : hapd_interfaces) (trace : List Event) : Outcome :=
  if cfg.CONFIG_USE_VENDOR_HIDL then
    let trace := trace ++ [Event.newHostapdVendor]
    let s : ModState := { s with vendor_service := env.newHostapdVendor }
    match env.newHostapdVendor with
    | none => init_err cfg s interfaces trace
    | some v =>
      let trace := trace ++ [Event.vendorRegisterAsService v]
      if env.vendorRegisterAsService ≠ NO_ERROR then init_err cfg s interfaces trace
      else { ret := 0, state := s, interfaces := interfaces, trace := trace }
  else
    { ret := 0, state := s, interfaces := interfaces, trace := trace }

/-- Lines 79-92 of `hostapd_hidl_init`: construct the standard service and
publish it under the overriding or the default name. -/
def init_service (cfg : Config) (env : InitEnv) (s : ModState)
    (interfaces : hapd_interfaces) (trace : List Event) : Outcome :=
  let trace := trace ++ [Event.newHostapd]
  let s : ModState := { s with service := env.newHostapd }
  match env.newHostapd with
  | none => init_err cfg s interfaces trace
  | some h =>
    match interfaces.hidl_service_name with
    | some name =>
      let trace := trace ++
        [ Event.wpa_printf .MSG_DEBUG "Override HIDL service name: %s" [.str name],
          Event.registerAsService h (some name) ]
      if env.registerAsService (some name) ≠ NO_ERROR then init_err cfg s interfaces trace
      else init_vendor cfg env s interfaces trace
    | none =>
      let trace := trace ++
        [ Event.wpa_printf .MSG_DEBUG "Using default HIDL service name" [],
          Event.registerAsService h none ]
      if env.registerAsService none ≠ NO_ERROR then init_err cfg s interfaces trace
      else init_vendor cfg env s interfaces trace

/-- Lines 64-70 of `hostapd_hidl_init`: the calls made before the descriptor
is first tested. -/
def init_prologue (cfg : Config) (env : InitEnv) (s : ModState) : List Event :=
  [Event.wpa_printf .MSG_DEBUG "Initing hidl control" []] ++
  (if cfg.ARCH_ARM_32 then
    [ Event.property_get_int32 "persist.vendor.wifi.supplicant.hw.binder.size"
        (DEFAULT_WIFISUPP_HW_BINDER_SIZE_KB : Int),
      Event.initWithMmapSize (getHWBinderMmapSize env.property_get_int32) ]
   else []) ++
  [ Event.disableBackgroundScheduling true, Event.setupPolling s.hidl_fd ]

/-- `hostapd_hidl_init` (lines 62-106). -/
def hostapd_hidl_init (cfg : Config) (env : InitEnv) (s : ModState)
    (interfaces : hapd_interfaces) : Outcome :=
  let trace := init_prologue cfg env s
  let s : ModState := { s with hidl_fd := env.setupPolling s.hidl_fd }
  if s.hidl_fd < 0 then init_err cfg s interfaces trace
  else
    let trace := trace ++
      [ Event.wpa_printf .MSG_INFO "Processing hidl events on FD %d" [.int s.hidl_fd],
        Event.eloop_register_read_sock s.hidl_fd ]
    if env.eloop_register_read_sock < 0 then init_err cfg s interfaces trace
    else init_service cfg env s interfaces trace

/-- `notify_hidl_sta_connected` (lines 123-135).  `num_sta` is narrowed to
`uint8_t` and only logged. -/
def notify_hidl_sta_connected (env : NotifyEnv) (s : ModState) (num_sta : Int)
    (addr : List Nat) (iface_name : String) : Int × ModState × List Event :=
  let num_stations : Int := num_sta % 256
  let Macaddr : List Nat := addr
  let trace : List Event :=
    [ .wpa_printf .MSG_INFO
        "num_sta[%d]: Connected Macaddress%02x:%02x:%02x:%02x:%02x:%02x"
        (LogArg.int num_stations :: MAC2STR Macaddr) ]
  match s.vendor_service with
  | none =>
    (-1, s, trace ++
      [.wpa_printf .MSG_ERROR "Failed to getInstance of hostapdvendor" []])
  | some v =>
    (env.onStaConnected Macaddr iface_name, s,
      trace ++ [.onStaConnected v Macaddr iface_name])

/-- `notify_hidl_sta_disconnected` (lines 137-148). -/
def notify_hidl_sta_disconnected (env : NotifyEnv) (s : ModState)
    (addr : List Nat) (iface_name : String) : Int × ModState × List Event :=
  let Macaddr : List Nat := addr
  let trace : List Event :=
    [ .wpa_printf .MSG_INFO
        " Disconnected Macaddress:%02x:%02x:%02x:%02x:%02x:%02x"
        (MAC2STR Macaddr) ]
  match s.vendor_service with
  | none =>
    (-1, s, trace ++
      [.wpa_printf .MSG_ERROR "Failed to getInstance of hostapdvendor" []])
  | some v =>
    (env.onStaDisconnected Macaddr iface_name, s,
      trace ++ [.onStaDisconnected v Macaddr iface_name])

/-! ## Sequences of calls -/

/-- One completed call into the file, with the answers the outside gave
during it. -/
inductive Call where
  | init (env : InitEnv) (interfaces : hapd_interfaces)
  | deinit (interfaces : hapd_interfaces)
  | sta_connected (env : NotifyEnv) (num_sta : Int) (addr : List Nat) (iface_name : String)
  | sta_disconnected (env : NotifyEnv) (addr : List Nat) (iface_name : String)

/-- What the most recent lifecycle call was. -/
inductive Lifecycle where
  | never
  | initReturned (ret : Int)
  | deinitDone
  deriving DecidableEq, Repr

/-- The globals after one call. -/
def stepState (cfg : Config) (s : ModState) : Call → ModState
  | .init env interfaces => (hostapd_hidl_init cfg env s interfaces).state
  | .deinit interfaces => (hostapd_hidl_deinit cfg s interfaces).1
  | .sta_connected env n addr iface => (notify_hidl_sta_connected env s n addr iface).2.1
  | .sta_disconnected env addr iface => (notify_hidl_sta_disconnected env s addr iface).2.1

/-- The most recent lifecycle call after one more call made in state `s`. -/
def stepLifecycle (cfg : Config) (s : ModState) (l : Lifecycle) : Call → Lifecycle
  | .init env interfaces => .initReturned (hostapd_hidl_init cfg env s interfaces).ret
  | .deinit _ => .deinitDone
  | .sta_connected _ _ _ _ => l
  | .sta_disconnected _ _ _ => l

/-- Run a sequence of calls from a given state, tracking the globals and the
most recent lifecycle call. -/
def runFrom (cfg : Config) : ModState × Lifecycle → List Call → ModState × Lifecycle
  | sl, [] => sl
  | sl, c :: cs => runFrom cfg (stepState cfg sl.1 c, stepLifecycle cfg sl.1 sl.2 c) cs

/-- Run a sequence of calls from the initial globals. -/
def run (cfg : Config) (calls : List Call) : ModState × Lifecycle :=
  runFrom cfg (ModState.initial, Lifecycle.never) calls

/-- Every condition `hostapd_hidl_init` tests held. -/
def InitOk (cfg : Config) (env : InitEnv) (s : ModState) (interfaces : hapd_interfaces) : Prop :=
  0 ≤ env.setupPolling s.hidl_fd ∧
  0 ≤ env.eloop_register_read_sock ∧
  env.newHostapd ≠ none ∧
  env.registerAsService interfaces.hidl_service_name = NO_ERROR ∧
  (cfg.CONFIG_USE_VENDOR_HIDL = true →
    env.newHostapdVendor ≠ none ∧ env.vendorRegisterAsService = NO_ERROR)

/-- The six counters of the tested steps of `hostapd_hidl_init` in a trace. -/
def stepCounts (t : List Event) : List Nat :=
  [ t.countP Event.isSetupPolling, t.countP Event.isEloopRegister,
    t.countP Event.isNewHostapd, t.countP Event.isStdRegister,
    t.countP Event.isNewHostapdVendor, t.countP Event.isVendorRegister ]

/-- The relation between the globals and the most recent lifecycle call that
every completed call maintains: after a start that returned 0 the descriptor
is valid and the handles are set; otherwise everything is reset. -/
def Consistent (cfg : Config) (sl : ModState × Lifecycle) : Prop :=
  (sl.2 = Lifecycle.initReturned 0 →
    0 ≤ sl.1.hidl_fd ∧ sl.1.service ≠ none ∧
      (cfg.CONFIG_USE_VENDOR_HIDL = true → sl.1.vendor_service ≠ none)) ∧
  (sl.2 ≠ Lifecycle.initReturned 0 →
    sl.1.hidl_fd = -1 ∧ sl.1.service = none ∧ sl.1.vendor_service = none) ∧
  (cfg.CONFIG_USE_VENDOR_HIDL = false → sl.1.vendor_service = none)

/-! ## Concrete inputs used to exercise the theorems -/

/-- An environment in which every outside call succeeds. -/
def envAllOk : InitEnv :=
  { property_get_int32 := 4
    setupPolling := fun _ => 7
    eloop_register_read_sock := 0
    newHostapd := some 1
    registerAsService := fun _ => NO_ERROR
    newHostapdVendor := some 2
    vendorRegisterAsService := NO_ERROR }

/-- An environment in which `setupPolling` leaves the descriptor untouched. -/
def envNoFd : InitEnv := { envAllOk with setupPolling := fun fd => fd }

/-- An environment in which `eloop_register_read_sock` fails. -/
def envEloopFails : InitEnv := { envAllOk with eloop_register_read_sock := -1 }

/-- An environment in which publishing the vendor service fails. -/
def envVendorRegisterFails : InitEnv := { envAllOk with vendorRegisterAsService := -22 }

/-- A build with both switches on. -/
def cfgFull : Config := { ARCH_ARM_32 := true, CONFIG_USE_VENDOR_HIDL := true }

/-- An interface table with an overriding service name. -/
def tableNamed : hapd_interfaces := { hidl_service_name := some "wlan0", others := [1, 2, 3] }

/-- An interface table without an overriding service name. -/
def tableDefault : hapd_interfaces := { hidl_service_name := none, others := [1, 2, 3] }

/-- Globals after a successful start. -/
def stateUp : ModState := { hidl_fd := 7, service := some 1, vendor_service := some 2 }

/-- A vendor service that answers 5 to a connect and 9 to a disconnect. -/
def envNotify : NotifyEnv :=
  { onStaConnected := fun _ _ => 5, onStaDisconnected := fun _ _ => 9 }

/-- A start, a notification, a stop and a failing start. -/
def sampleCalls : List Call :=
  [ Call.init envAllOk tableNamed,
    Call.sta_connected envNotify 1 [2, 0, 0, 0, 0, 1] "wlan0",
    Call.deinit tableNamed,
    Call.init envEloopFails tableDefault ]

/-! ## What one call does to the globals -/

theorem deinit_state (cfg : Config) (s : ModState) (interfaces : hapd_interfaces) :
    (hostapd_hidl_deinit cfg s interfaces).1 =
      { hidl_fd := -1, service := none,
        vendor_service := if cfg.CONFIG_USE_VENDOR_HIDL then none else s.vendor_service } := by
  unfold hostapd_hidl_deinit
  cases h : cfg.CONFIG_USE_VENDOR_HIDL <;> simp

theorem deinit_interfaces (cfg : Config) (s : ModState) (interfaces : hapd_interfaces) :
    (hostapd_hidl_deinit cfg s interfaces).2.1 =
      { hidl_service_name := none, others := interfaces.others } := by
  unfold hostapd_hidl_deinit
  rfl

theorem deinit_trace (cfg : Config) (s : ModState) (interfaces : hapd_interfaces) :
    (hostapd_hidl_deinit cfg s interfaces).2.2 =
      [ Event.wpa_printf .MSG_DEBUG "Deiniting hidl control" [],
        Event.eloop_unregister_read_sock s.hidl_fd,
        Event.shutdown,
        Event.os_free interfaces.hidl_service_name ] := by
  unfold hostapd_hidl_deinit
  rfl

theorem init_ok (cfg : Config) (env : InitEnv) (s : ModState) (interfaces : hapd_interfaces)
    (h : InitOk cfg env s interfaces) :
    (hostapd_hidl_init cfg env s interfaces).ret = 0 ∧
    (hostapd_hidl_init cfg env s interfaces).state =
      { hidl_fd := env.setupPolling s.hidl_fd, service := env.newHostapd,
        vendor_service :=
          if cfg.CONFIG_USE_VENDOR_HIDL then env.newHostapdVendor else s.vendor_service } ∧
    (hostapd_hidl_init cfg env s interfaces).interfaces = interfaces := by
  obtain ⟨h1, h2, h3, h4, h5⟩ := h
  obtain ⟨hs, hh⟩ := Option.ne_none_iff_exists'.mp h3
  unfold hostapd_hidl_init init_service init_vendor
  cases hn : interfaces.hidl_service_name <;> rw [hn] at h4 <;>
  cases hv : cfg.CONFIG_USE_VENDOR_HIDL
  all_goals simp [hv] at h5
  all_goals simp [not_lt.mpr h1, not_lt.mpr h2, hh, h4, hv]
  all_goals
    obtain ⟨h6, h7⟩ := h5
    obtain ⟨v, hv6⟩ := Option.ne_none_iff_exists'.mp h6
    simp [hv6, h7]

theorem init_fail (cfg : Config) (env : InitEnv) (s : ModState) (interfaces : hapd_interfaces)
    (h : ¬ InitOk cfg env s interfaces) :
    (hostapd_hidl_init cfg env s interfaces).ret = -1 ∧
    (hostapd_hidl_init cfg env s interfaces).state =
      { hidl_fd := -1, service := none,
        vendor_service := if cfg.CONFIG_USE_VENDOR_HIDL then none else s.vendor_service } ∧
    (hostapd_hidl_init cfg env s interfaces).interfaces =
      { hidl_service_name := none, others := interfaces.others } := by
  unfold InitOk at h
  unfold hostapd_hidl_init init_service init_vendor init_err
  simp only [deinit_state, deinit_interfaces]
  by_cases h1 : env.setupPolling s.hidl_fd < 0
  · simp [h1]
  by_cases h2 : env.eloop_register_read_sock < 0
  · simp [h1, h2]
  cases h3 : env.newHostapd with
  | none => simp [h1, h2]
  | some hdl =>
    have h4 : env.registerAsService interfaces.hidl_service_name = NO_ERROR →
        cfg.CONFIG_USE_VENDOR_HIDL = true ∧
          (env.newHostapdVendor ≠ none → env.vendorRegisterAsService ≠ NO_ERROR) := by
      intro h4
      by_contra hc
      apply h
      refine ⟨not_lt.mp h1, not_lt.mp h2, by simp [h3], h4, ?_⟩
      intro hv
      by_contra hc2
      apply hc
      refine ⟨hv, ?_⟩
      intro hne hreg
      exact hc2 ⟨hne, hreg⟩
    cases hn : interfaces.hidl_service_name <;> rw [hn] at h4 <;>
    simp only [h1, h2, if_false] <;>
    split_ifs with h5 h6 <;> simp_all
    all_goals
      cases h7 : env.newHostapdVendor <;> simp_all

/-! ## Failure of `hostapd_hidl_init` -/

/-- C1: whenever one of the tested steps of `hostapd_hidl_init` fails (the
descriptor left by `setupPolling` is negative, `eloop_register_read_sock`
answers a negative value, a constructed object is null, or a
`registerAsService` call answers something other than `NO_ERROR`), the
function returns -1 and on return `hidl_fd` is -1, the standard handle is null
and, under `CONFIG_USE_VENDOR_HIDL`, the vendor handle is null. -/
theorem init_failure_rolls_back (cfg : Config) (env : InitEnv) (s : ModState)
    (interfaces : hapd_interfaces)
    (h : env.setupPolling s.hidl_fd < 0 ∨
         env.eloop_register_read_sock < 0 ∨
         env.newHostapd = none ∨
         env.registerAsService interfaces.hidl_service_name ≠ NO_ERROR ∨
         (cfg.CONFIG_USE_VENDOR_HIDL = true ∧
           (env.newHostapdVendor = none ∨ env.vendorRegisterAsService ≠ NO_ERROR))) :
    (hostapd_hidl_init cfg env s interfaces).ret = -1 ∧
    (hostapd_hidl_init cfg env s interfaces).state.hidl_fd = -1 ∧
    (hostapd_hidl_init cfg env s interfaces).state.service = none ∧
    (cfg.CONFIG_USE_VENDOR_HIDL = true →
      (hostapd_hidl_init cfg env s interfaces).state.vendor_service = none) := by
  have hno : ¬ InitOk cfg env s interfaces := by
    rintro ⟨h1, h2, h3, h4, h5⟩
    rcases h with h | h | h | h | ⟨hv, h⟩
    · exact absurd h (not_lt.mpr h1)
    · exact absurd h (not_lt.mpr h2)
    · exact h3 h
    · exact h h4
    · rcases h with h | h
      · exact (h5 hv).1 h
      · exact h (h5 hv).2
  obtain ⟨hr, hs, _⟩ := init_fail cfg env s interfaces hno
  refine ⟨hr, ?_, ?_, ?_⟩
  · rw [hs]
  · rw [hs]
  · intro hv
    rw [hs]
    simp [hv]

theorem init_failure_rolls_back_witness :
    (hostapd_hidl_init cfgFull envVendorRegisterFails stateUp tableNamed).ret = -1 ∧
    (hostapd_hidl_init cfgFull envVendorRegisterFails stateUp tableNamed).state.hidl_fd = -1 ∧
    (hostapd_hidl_init cfgFull envVendorRegisterFails stateUp tableNamed).state.service = none ∧
    (cfgFull.CONFIG_USE_VENDOR_HIDL = true →
      (hostapd_hidl_init cfgFull envVendorRegisterFails stateUp tableNamed).state.vendor_service
        = none) :=
  init_failure_rolls_back cfgFull envVendorRegisterFails stateUp tableNamed
    (Or.inr (Or.inr (Or.inr (Or.inr ⟨rfl, Or.inr (by decide)⟩))))

/-! ## Binary outcome of `hostapd_hidl_init` -/

theorem init_err_trace (cfg : Config) (s : ModState) (interfaces : hapd_interfaces)
    (t : List Event) :
    (init_err cfg s interfaces t).trace =
      t ++ [ Event.wpa_printf .MSG_DEBUG "Deiniting hidl control" [],
             Event.eloop_unregister_read_sock s.hidl_fd,
             Event.shutdown,
             Event.os_free interfaces.hidl_service_name ] := rfl

theorem stepCounts_append (t u : List Event) :
    stepCounts (t ++ u) = List.zipWith (· + ·) (stepCounts t) (stepCounts u) := by
  simp [stepCounts, List.countP_append]

theorem init_vendor_tail (cfg : Config) (env : InitEnv) (s : ModState)
    (interfaces : hapd_interfaces) (t : List Event) :
    ∃ tail, (init_vendor cfg env s interfaces t).trace = t ++ tail ∧
      ∃ a b, a ≤ 1 ∧ b ≤ 1 ∧ stepCounts tail = [0, 0, 0, 0, a, b] := by
  unfold init_vendor
  cases cfg.CONFIG_USE_VENDOR_HIDL
  · exact ⟨[], by simp, 0, 0, by simp, by simp, rfl⟩
  · cases env.newHostapdVendor with
    | none =>
      refine ⟨Event.newHostapdVendor :: (hostapd_hidl_deinit cfg s interfaces).2.2, ?_,
        1, 0, by simp, by simp, rfl⟩
      simp only [init_err_trace, deinit_trace, List.append_assoc, if_true]
      rfl
    | some v =>
      by_cases h : env.vendorRegisterAsService ≠ NO_ERROR
      · refine ⟨Event.newHostapdVendor :: Event.vendorRegisterAsService v ::
          (hostapd_hidl_deinit cfg s interfaces).2.2, ?_, 1, 1, by simp, by simp, rfl⟩
        simp only [if_true, if_pos h, init_err_trace, deinit_trace, List.append_assoc]
        rfl
      · refine ⟨[Event.newHostapdVendor, Event.vendorRegisterAsService v], ?_,
          1, 1, by simp, by simp, rfl⟩
        simp only [if_true, if_neg h, List.append_assoc]
        rfl

theorem init_service_tail (cfg : Config) (env : InitEnv) (s : ModState)
    (interfaces : hapd_interfaces) (t : List Event) :
    ∃ tail, (init_service cfg env s interfaces t).trace = t ++ tail ∧
      ∃ r a b, r ≤ 1 ∧ a ≤ 1 ∧ b ≤ 1 ∧ stepCounts tail = [0, 0, 1, r, a, b] := by
  unfold init_service
  cases env.newHostapd with
  | none =>
    refine ⟨Event.newHostapd :: (hostapd_hidl_deinit cfg s interfaces).2.2, ?_,
      0, 0, 0, by simp, by simp, by simp, rfl⟩
    simp only [init_err_trace, deinit_trace, List.append_assoc]
    rfl
  | some hdl =>
    cases hn : interfaces.hidl_service_name with
    | none =>
      by_cases h : env.registerAsService none ≠ NO_ERROR
      · refine ⟨Event.newHostapd ::
            Event.wpa_printf .MSG_DEBUG "Using default HIDL service name" [] ::
            Event.registerAsService hdl none ::
            (hostapd_hidl_deinit cfg s interfaces).2.2, ?_,
          1, 0, 0, by simp, by simp, by simp, rfl⟩
        simp only [if_pos h, init_err_trace, deinit_trace, List.append_assoc]
        rfl
      · obtain ⟨tail, ht, a, b, ha, hb, hc⟩ := init_vendor_tail cfg env
          { s with service := some hdl } interfaces
          (t ++ [Event.newHostapd] ++
            [ Event.wpa_printf .MSG_DEBUG "Using default HIDL service name" [],
              Event.registerAsService hdl none ])
        refine ⟨[ Event.newHostapd,
              Event.wpa_printf .MSG_DEBUG "Using default HIDL service name" [],
              Event.registerAsService hdl none ] ++ tail, ?_, 1, a, b, by simp, ha, hb, ?_⟩
        · simp only [if_neg h]
          rw [ht]
          simp only [List.append_assoc, List.cons_append, List.nil_append]
        · rw [stepCounts_append, hc]
          simp [stepCounts, Event.isSetupPolling, Event.isEloopRegister, Event.isNewHostapd,
            Event.isStdRegister, Event.isNewHostapdVendor, Event.isVendorRegister]
    | some name =>
      by_cases h : env.registerAsService (some name) ≠ NO_ERROR
      · refine ⟨Event.newHostapd ::
            Event.wpa_printf .MSG_DEBUG "Override HIDL service name: %s" [.str name] ::
            Event.registerAsService hdl (some name) ::
            (hostapd_hidl_deinit cfg s interfaces).2.2, ?_,
          1, 0, 0, by simp, by simp, by simp, rfl⟩
        simp only [if_pos h, init_err_trace, deinit_trace, List.append_assoc, hn]
        rfl
      · obtain ⟨tail, ht, a, b, ha, hb, hc⟩ := init_vendor_tail cfg env
          { s with service := some hdl } interfaces
          (t ++ [Event.newHostapd] ++
            [ Event.wpa_printf .MSG_DEBUG "Override HIDL service name: %s" [.str name],
              Event.registerAsService hdl (some name) ])
        refine ⟨[ Event.newHostapd,
              Event.wpa_printf .MSG_DEBUG "Override HIDL service name: %s" [.str name],
              Event.registerAsService hdl (some name) ] ++ tail, ?_, 1, a, b, by simp, ha, hb, ?_⟩
        · simp only [if_neg h]
          rw [ht]
          simp only [List.append_assoc, List.cons_append, List.nil_append]
        · rw [stepCounts_append, hc]
          simp [stepCounts, Event.isSetupPolling, Event.isEloopRegister, Event.isNewHostapd,
            Event.isStdRegister, Event.isNewHostapdVendor, Event.isVendorRegister]

theorem stepCounts_prologue (cfg : Config) (env : InitEnv) (s : ModState) :
    stepCounts (init_prologue cfg env s) = [1, 0, 0, 0, 0, 0] := by
  unfold init_prologue
  cases cfg.ARCH_ARM_32 <;> rfl

theorem init_stepCounts (cfg : Config) (env : InitEnv) (s : ModState)
    (interfaces : hapd_interfaces) :
    ∃ e n r a b, e ≤ 1 ∧ n ≤ 1 ∧ r ≤ 1 ∧ a ≤ 1 ∧ b ≤ 1 ∧
      stepCounts (hostapd_hidl_init cfg env s interfaces).trace = [1, e, n, r, a, b] := by
  unfold hostapd_hidl_init
  by_cases h1 : env.setupPolling s.hidl_fd < 0
  · refine ⟨0, 0, 0, 0, 0, by simp, by simp, by simp, by simp, by simp, ?_⟩
    simp only [if_pos h1, init_err_trace, stepCounts_append, stepCounts_prologue]
    rfl
  by_cases h2 : env.eloop_register_read_sock < 0
  · refine ⟨1, 0, 0, 0, 0, by simp, by simp, by simp, by simp, by simp, ?_⟩
    simp only [if_neg h1, if_pos h2, init_err_trace, stepCounts_append,
      stepCounts_prologue]
    rfl
  obtain ⟨tail, ht, r, a, b, hr, ha, hb, hc⟩ := init_service_tail cfg env
    { s with hidl_fd := env.setupPolling s.hidl_fd } interfaces
    (init_prologue cfg env s ++
      [ Event.wpa_printf .MSG_INFO "Processing hidl events on FD %d"
          [.int (env.setupPolling s.hidl_fd)],
        Event.eloop_register_read_sock (env.setupPolling s.hidl_fd) ])
  refine ⟨1, 1, r, a, b, by simp, by simp, hr, ha, hb, ?_⟩
  simp only [if_neg h1, if_neg h2]
  rw [ht]
  simp only [stepCounts_append, stepCounts_prologue, hc]
  simp [stepCounts, Event.isSetupPolling, Event.isEloopRegister, Event.isNewHostapd,
    Event.isStdRegister, Event.isNewHostapdVendor, Event.isVendorRegister]
/-- C2: `hostapd_hidl_init` returns 0 or -1; it returns 0 exactly when
`setupPolling` left a descriptor `>= 0`, `eloop_register_read_sock` answered
`>= 0`, the service object is non-null and its `registerAsService` answered
`NO_ERROR` (and, under `CONFIG_USE_VENDOR_HIDL`, the vendor object is non-null
and its `registerAsService` answered `NO_ERROR`); and each of these steps
occurs at most once among the calls of one run. -/
theorem init_binary_outcome (cfg : Config) (env : InitEnv) (s : ModState)
    (interfaces : hapd_interfaces) :
    ((hostapd_hidl_init cfg env s interfaces).ret = 0 ∨
      (hostapd_hidl_init cfg env s interfaces).ret = -1) ∧
    ((hostapd_hidl_init cfg env s interfaces).ret = 0 ↔
      (0 ≤ env.setupPolling s.hidl_fd ∧
       0 ≤ env.eloop_register_read_sock ∧
       env.newHostapd ≠ none ∧
       env.registerAsService interfaces.hidl_service_name = NO_ERROR ∧
       (cfg.CONFIG_USE_VENDOR_HIDL = true →
         env.newHostapdVendor ≠ none ∧ env.vendorRegisterAsService = NO_ERROR))) ∧
    (hostapd_hidl_init cfg env s interfaces).trace.countP Event.isSetupPolling ≤ 1 ∧
    (hostapd_hidl_init cfg env s interfaces).trace.countP Event.isEloopRegister ≤ 1 ∧
    (hostapd_hidl_init cfg env s interfaces).trace.countP Event.isNewHostapd ≤ 1 ∧
    (hostapd_hidl_init cfg env s interfaces).trace.countP Event.isStdRegister ≤ 1 ∧
    (hostapd_hidl_init cfg env s interfaces).trace.countP Event.isNewHostapdVendor ≤ 1 ∧
    (hostapd_hidl_init cfg env s interfaces).trace.countP Event.isVendorRegister ≤ 1 := by
  obtain ⟨e, n, r, a, b, he, hn, hr, ha, hb, hc⟩ := init_stepCounts cfg env s interfaces
  simp only [stepCounts, List.cons.injEq, and_true] at hc
  obtain ⟨c1, c2, c3, c4, c5, c6⟩ := hc
  refine ⟨?_, ?_, by omega, by omega, by omega, by omega, by omega, by omega⟩
  · by_cases h : InitOk cfg env s interfaces
    · exact Or.inl (init_ok cfg env s interfaces h).1
    · exact Or.inr (init_fail cfg env s interfaces h).1
  · constructor
    · intro h0
      by_contra h
      have := (init_fail cfg env s interfaces h).1
      rw [h0] at this
      exact absurd this (by decide)
    · intro h
      exact (init_ok cfg env s interfaces h).1

theorem init_binary_outcome_witness :
    (hostapd_hidl_init cfgFull envAllOk ModState.initial tableNamed).ret = 0 ∧
    (hostapd_hidl_init cfgFull envEloopFails ModState.initial tableNamed).ret = -1 :=
  ⟨((init_binary_outcome cfgFull envAllOk ModState.initial tableNamed).2.1).mpr
      ⟨by decide, by decide, by decide, by decide, fun _ => ⟨by decide, by decide⟩⟩,
   ((init_binary_outcome cfgFull envEloopFails ModState.initial tableNamed).1).resolve_left
      (by decide)⟩

theorem init_err_suffix (cfg : Config) (s : ModState) (interfaces : hapd_interfaces)
    (t : List Event) :
    [ Event.wpa_printf .MSG_DEBUG "Deiniting hidl control" [],
      Event.eloop_unregister_read_sock s.hidl_fd,
      Event.shutdown,
      Event.os_free interfaces.hidl_service_name ] <:+
      (init_err cfg s interfaces t).trace := by
  rw [init_err_trace]
  exact List.suffix_append _ _

theorem init_vendor_fail_suffix (cfg : Config) (env : InitEnv) (s : ModState)
    (interfaces : hapd_interfaces) (t : List Event)
    (h : (init_vendor cfg env s interfaces t).ret ≠ 0) :
    [ Event.wpa_printf .MSG_DEBUG "Deiniting hidl control" [],
      Event.eloop_unregister_read_sock s.hidl_fd,
      Event.shutdown,
      Event.os_free interfaces.hidl_service_name ] <:+
      (init_vendor cfg env s interfaces t).trace := by
  unfold init_vendor at h ⊢
  cases hc : cfg.CONFIG_USE_VENDOR_HIDL
  · rw [hc] at h
    simp at h
  · rw [hc] at h
    cases hv : env.newHostapdVendor with
    | none => exact init_err_suffix cfg _ interfaces _
    | some v =>
      rw [hv] at h
      by_cases hr : env.vendorRegisterAsService ≠ NO_ERROR
      · simp only [if_true, if_pos hr]
        exact init_err_suffix cfg _ interfaces _
      · simp [if_neg hr] at h

theorem init_service_fail_suffix (cfg : Config) (env : InitEnv) (s : ModState)
    (interfaces : hapd_interfaces) (t : List Event)
    (h : (init_service cfg env s interfaces t).ret ≠ 0) :
    [ Event.wpa_printf .MSG_DEBUG "Deiniting hidl control" [],
      Event.eloop_unregister_read_sock s.hidl_fd,
      Event.shutdown,
      Event.os_free interfaces.hidl_service_name ] <:+
      (init_service cfg env s interfaces t).trace := by
  unfold init_service at h ⊢
  cases ho : env.newHostapd with
  | none => exact init_err_suffix cfg _ interfaces _
  | some hdl =>
    rw [ho] at h
    cases hn : interfaces.hidl_service_name with
    | none =>
      rw [hn] at h
      by_cases hr : env.registerAsService none ≠ NO_ERROR
      · simp only [if_pos hr]
        have := init_err_suffix cfg { s with service := some hdl } interfaces
          (t ++ [Event.newHostapd] ++
            [ Event.wpa_printf .MSG_DEBUG "Using default HIDL service name" [],
              Event.registerAsService hdl none ])
        rw [hn] at this
        exact this
      · simp only [if_neg hr] at h ⊢
        have := init_vendor_fail_suffix cfg env _ interfaces _ h
        rw [hn] at this
        exact this
    | some name =>
      rw [hn] at h
      by_cases hr : env.registerAsService (some name) ≠ NO_ERROR
      · simp only [if_pos hr]
        have := init_err_suffix cfg { s with service := some hdl } interfaces
          (t ++ [Event.newHostapd] ++
            [ Event.wpa_printf .MSG_DEBUG "Override HIDL service name: %s" [.str name],
              Event.registerAsService hdl (some name) ])
        rw [hn] at this
        exact this
      · simp only [if_neg hr] at h ⊢
        have := init_vendor_fail_suffix cfg env _ interfaces _ h
        rw [hn] at this
        exact this

theorem init_fail_suffix (cfg : Config) (env : InitEnv) (s : ModState)
    (interfaces : hapd_interfaces)
    (h : (hostapd_hidl_init cfg env s interfaces).ret ≠ 0) :
    [ Event.wpa_printf .MSG_DEBUG "Deiniting hidl control" [],
      Event.eloop_unregister_read_sock (env.setupPolling s.hidl_fd),
      Event.shutdown,
      Event.os_free interfaces.hidl_service_name ] <:+
      (hostapd_hidl_init cfg env s interfaces).trace := by
  unfold hostapd_hidl_init at h ⊢
  by_cases h1 : env.setupPolling s.hidl_fd < 0
  · simp only [if_pos h1]
    exact init_err_suffix cfg { s with hidl_fd := env.setupPolling s.hidl_fd } interfaces _
  by_cases h2 : env.eloop_register_read_sock < 0
  · simp only [if_neg h1, if_pos h2]
    exact init_err_suffix cfg { s with hidl_fd := env.setupPolling s.hidl_fd } interfaces _
  simp only [if_neg h1, if_neg h2] at h ⊢
  exact init_service_fail_suffix cfg env { s with hidl_fd := env.setupPolling s.hidl_fd }
    interfaces _ h

/-! ## Name of the published service -/

theorem init_vendor_filter_std (cfg : Config) (env : InitEnv) (s : ModState)
    (interfaces : hapd_interfaces) (t : List Event) :
    (init_vendor cfg env s interfaces t).trace.filter Event.isStdRegister =
      t.filter Event.isStdRegister := by
  obtain ⟨tail, ht, a, b, _, _, hc⟩ := init_vendor_tail cfg env s interfaces t
  simp only [stepCounts, List.cons.injEq, and_true] at hc
  have h0 : tail.filter Event.isStdRegister = [] := by
    rw [← List.length_eq_zero, ← List.countP_eq_length_filter]
    exact hc.2.2.2.1
  rw [ht, List.filter_append, h0, List.append_nil]

theorem init_service_filter_std (cfg : Config) (env : InitEnv) (s : ModState)
    (interfaces : hapd_interfaces) (t : List Event) (h : Handle)
    (hobj : env.newHostapd = some h) :
    (init_service cfg env s interfaces t).trace.filter Event.isStdRegister =
      t.filter Event.isStdRegister ++
        [Event.registerAsService h interfaces.hidl_service_name] := by
  unfold init_service
  rw [hobj]
  cases hn : interfaces.hidl_service_name with
  | none =>
    by_cases hr : env.registerAsService none ≠ NO_ERROR
    · simp only [if_pos hr, init_err_trace, List.filter_append]
      simp [Event.isStdRegister]
    · simp only [if_neg hr, init_vendor_filter_std, List.filter_append]
      simp [Event.isStdRegister]
  | some name =>
    by_cases hr : env.registerAsService (some name) ≠ NO_ERROR
    · simp only [if_pos hr, init_err_trace, List.filter_append]
      simp [Event.isStdRegister]
    · simp only [if_neg hr, init_vendor_filter_std, List.filter_append]
      simp [Event.isStdRegister]

theorem prologue_filter_std (cfg : Config) (env : InitEnv) (s : ModState) :
    (init_prologue cfg env s).filter Event.isStdRegister = [] := by
  unfold init_prologue
  cases cfg.ARCH_ARM_32 <;> rfl

/-- C3: when `hostapd_hidl_init` reaches service publication (the descriptor
is valid, the event loop accepted it and the service object `h` was
constructed), the calls of `registerAsService` on the standard service are
exactly one call, whose name argument is `interfaces->hidl_service_name`: the
overriding string when that is non-null and no name (platform default) when it
is null. -/
theorem init_registers_under_name (cfg : Config) (env : InitEnv) (s : ModState)
    (interfaces : hapd_interfaces) (h : Handle)
    (hfd : 0 ≤ env.setupPolling s.hidl_fd)
    (hreg : 0 ≤ env.eloop_register_read_sock)
    (hobj : env.newHostapd = some h) :
    (hostapd_hidl_init cfg env s interfaces).trace.filter Event.isStdRegister =
      [Event.registerAsService h interfaces.hidl_service_name] ∧
    (∀ name : String,
      Event.registerAsService h (some name) ∈ (hostapd_hidl_init cfg env s interfaces).trace ↔
        interfaces.hidl_service_name = some name) ∧
    (Event.registerAsService h none ∈ (hostapd_hidl_init cfg env s interfaces).trace ↔
        interfaces.hidl_service_name = none) := by
  have key : (hostapd_hidl_init cfg env s interfaces).trace.filter Event.isStdRegister =
      [Event.registerAsService h interfaces.hidl_service_name] := by
    unfold hostapd_hidl_init
    simp only [if_neg (not_lt.mpr hfd), if_neg (not_lt.mpr hreg)]
    rw [init_service_filter_std cfg env _ interfaces _ h hobj, List.filter_append,
      prologue_filter_std]
    rfl
  have mem : ∀ n : Option String,
      Event.registerAsService h n ∈ (hostapd_hidl_init cfg env s interfaces).trace ↔
        interfaces.hidl_service_name = n := by
    intro n
    have hm : Event.registerAsService h n ∈ (hostapd_hidl_init cfg env s interfaces).trace ↔
        Event.registerAsService h n ∈
          (hostapd_hidl_init cfg env s interfaces).trace.filter Event.isStdRegister := by
      rw [List.mem_filter]
      simp [Event.isStdRegister]
    rw [hm, key]
    simp only [List.mem_singleton, Event.registerAsService.injEq, true_and]
    exact eq_comm
  exact ⟨key, fun name => mem (some name), mem none⟩

theorem init_registers_under_name_witness :
    (hostapd_hidl_init cfgFull envAllOk ModState.initial tableNamed).trace.filter
        Event.isStdRegister = [Event.registerAsService 1 (some "wlan0")] ∧
    (hostapd_hidl_init cfgFull envAllOk ModState.initial tableDefault).trace.filter
        Event.isStdRegister = [Event.registerAsService 1 none] :=
  ⟨(init_registers_under_name cfgFull envAllOk ModState.initial tableNamed 1
      (by decide) (by decide) rfl).1,
   (init_registers_under_name cfgFull envAllOk ModState.initial tableDefault 1
      (by decide) (by decide) rfl).1⟩

/-! ## Station notifications -/

/-- C4: with a null vendor handle both notification functions return -1, make
no call into the runtime or on any service object (they only log), and leave
`hidl_fd` and both handles as they were, whatever the station count, address
and interface name. -/
theorem notify_without_vendor_service (env : NotifyEnv) (s : ModState)
    (num_sta : Int) (addr : List Nat) (iface_name : String)
    (hnull : s.vendor_service = none) :
    (notify_hidl_sta_connected env s num_sta addr iface_name).1 = -1 ∧
    (notify_hidl_sta_connected env s num_sta addr iface_name).2.1 = s ∧
    (notify_hidl_sta_connected env s num_sta addr iface_name).2.2.filter
      Event.isServiceCall = [] ∧
    (notify_hidl_sta_connected env s num_sta addr iface_name).2.2.filter
      Event.isRuntimeCall = [] ∧
    (notify_hidl_sta_disconnected env s addr iface_name).1 = -1 ∧
    (notify_hidl_sta_disconnected env s addr iface_name).2.1 = s ∧
    (notify_hidl_sta_disconnected env s addr iface_name).2.2.filter
      Event.isServiceCall = [] ∧
    (notify_hidl_sta_disconnected env s addr iface_name).2.2.filter
      Event.isRuntimeCall = [] := by
  unfold notify_hidl_sta_connected notify_hidl_sta_disconnected
  rw [hnull]
  refine ⟨rfl, rfl, rfl, rfl, rfl, rfl, rfl, rfl⟩

theorem notify_without_vendor_service_witness :
    (notify_hidl_sta_connected envNotify ModState.initial 3 [2, 0, 0, 0, 0, 1] "wlan0").1 = -1 ∧
    (notify_hidl_sta_disconnected envNotify ModState.initial [2, 0, 0, 0, 0, 1] "wlan0").1 = -1 :=
  ⟨(notify_without_vendor_service envNotify ModState.initial 3 [2, 0, 0, 0, 0, 1] "wlan0" rfl).1,
   (notify_without_vendor_service envNotify ModState.initial 3 [2, 0, 0, 0, 0, 1] "wlan0"
      rfl).2.2.2.2.1⟩

/-- C5: with a non-null vendor handle `v`, `notify_hidl_sta_connected` makes
exactly one call on a service object, `onStaConnected(addr, iface_name)` on
`v` with both arguments unchanged, and returns what that call answered;
`notify_hidl_sta_disconnected` does the same with `onStaDisconnected`; the
globals are untouched, and neither the result nor the forwarded call depends
on `num_sta`. -/
theorem notify_forwards_to_vendor_service (env : NotifyEnv) (s : ModState)
    (num_sta : Int) (addr : List Nat) (iface_name : String) (v : Handle)
    (hv : s.vendor_service = some v) :
    (notify_hidl_sta_connected env s num_sta addr iface_name).1 =
      env.onStaConnected addr iface_name ∧
    (notify_hidl_sta_connected env s num_sta addr iface_name).2.2.filter
      Event.isRuntimeCall = [Event.onStaConnected v addr iface_name] ∧
    (notify_hidl_sta_connected env s num_sta addr iface_name).2.2.filter
      Event.isServiceCall = [Event.onStaConnected v addr iface_name] ∧
    (notify_hidl_sta_connected env s num_sta addr iface_name).2.1 = s ∧
    (notify_hidl_sta_disconnected env s addr iface_name).1 =
      env.onStaDisconnected addr iface_name ∧
    (notify_hidl_sta_disconnected env s addr iface_name).2.2.filter
      Event.isRuntimeCall = [Event.onStaDisconnected v addr iface_name] ∧
    (notify_hidl_sta_disconnected env s addr iface_name).2.2.filter
      Event.isServiceCall = [Event.onStaDisconnected v addr iface_name] ∧
    (notify_hidl_sta_disconnected env s addr iface_name).2.1 = s ∧
    (∀ num_sta2 : Int,
      (notify_hidl_sta_connected env s num_sta2 addr iface_name).1 =
        (notify_hidl_sta_connected env s num_sta addr iface_name).1 ∧
      (notify_hidl_sta_connected env s num_sta2 addr iface_name).2.2.filter
          Event.isServiceCall =
        (notify_hidl_sta_connected env s num_sta addr iface_name).2.2.filter
          Event.isServiceCall) := by
  unfold notify_hidl_sta_connected notify_hidl_sta_disconnected
  rw [hv]
  refine ⟨rfl, rfl, rfl, rfl, rfl, rfl, rfl, rfl, fun _ => ⟨rfl, rfl⟩⟩

theorem notify_forwards_to_vendor_service_witness :
    (notify_hidl_sta_connected envNotify stateUp 300 [2, 0, 0, 0, 0, 1] "wlan0").1 = 5 ∧
    (notify_hidl_sta_disconnected envNotify stateUp [2, 0, 0, 0, 0, 1] "wlan0").1 = 9 :=
  ⟨(notify_forwards_to_vendor_service envNotify stateUp 300 [2, 0, 0, 0, 0, 1] "wlan0" 2 rfl).1,
   (notify_forwards_to_vendor_service envNotify stateUp 300 [2, 0, 0, 0, 0, 1] "wlan0" 2
      rfl).2.2.2.2.1⟩

/-! ## Teardown -/

/-- C6: from every prior state, after `hostapd_hidl_deinit` the descriptor is
-1 and the standard handle is null, and the vendor handle is null (it is
cleared under `CONFIG_USE_VENDOR_HIDL`, and does not exist otherwise); a
second `hostapd_hidl_deinit`, on any interface table, leaves the globals
exactly as the first one left them, and on the same table leaves the table as
the first one left it. -/
theorem deinit_resets_and_is_idempotent (cfg : Config) (s : ModState)
    (interfaces : hapd_interfaces) :
    (hostapd_hidl_deinit cfg s interfaces).1.hidl_fd = -1 ∧
    (hostapd_hidl_deinit cfg s interfaces).1.service = none ∧
    ((cfg.CONFIG_USE_VENDOR_HIDL = true ∨ s.vendor_service = none) →
      (hostapd_hidl_deinit cfg s interfaces).1.vendor_service = none) ∧
    (∀ interfaces2 : hapd_interfaces,
      (hostapd_hidl_deinit cfg (hostapd_hidl_deinit cfg s interfaces).1 interfaces2).1 =
        (hostapd_hidl_deinit cfg s interfaces).1) ∧
    (hostapd_hidl_deinit cfg (hostapd_hidl_deinit cfg s interfaces).1
        (hostapd_hidl_deinit cfg s interfaces).2.1).2.1 =
      (hostapd_hidl_deinit cfg s interfaces).2.1 := by
  simp only [deinit_state, deinit_interfaces]
  refine ⟨trivial, trivial, ?_, ?_, trivial⟩
  · rintro (h | h)
    · simp [h]
    · cases cfg.CONFIG_USE_VENDOR_HIDL <;> simp [h]
  · intro _
    cases cfg.CONFIG_USE_VENDOR_HIDL <;> simp

theorem deinit_resets_and_is_idempotent_witness :
    (hostapd_hidl_deinit cfgFull stateUp tableNamed).1 = ModState.initial ∧
    (hostapd_hidl_deinit cfgFull (hostapd_hidl_deinit cfgFull stateUp tableNamed).1
        tableNamed).1 = (hostapd_hidl_deinit cfgFull stateUp tableNamed).1 ∧
    (hostapd_hidl_deinit cfgFull stateUp tableNamed).1.vendor_service = none :=
  ⟨by decide,
   (deinit_resets_and_is_idempotent cfgFull stateUp tableNamed).2.2.2.1 tableNamed,
   (deinit_resets_and_is_idempotent cfgFull stateUp tableNamed).2.2.1 (Or.inl rfl)⟩

/-! ## The interface table -/

/-- C7, as stated, fails: `hostapd_hidl_deinit` on a table whose
`hidl_service_name` is "wlan0" hands back a table whose `hidl_service_name` is
null, and so does a failing `hostapd_hidl_init`. -/
theorem interfaces_not_preserved :
    (hostapd_hidl_deinit cfgFull stateUp tableNamed).2.1 ≠ tableNamed ∧
    (hostapd_hidl_deinit cfgFull stateUp tableNamed).2.1.hidl_service_name = none ∧
    (hostapd_hidl_init cfgFull envEloopFails ModState.initial tableNamed).ret = -1 ∧
    (hostapd_hidl_init cfgFull envEloopFails ModState.initial tableNamed).interfaces
      ≠ tableNamed := by
  refine ⟨by decide, rfl, by decide, by decide⟩

/-- C7, amended: a successful `hostapd_hidl_init` hands the interface table
back unchanged; `hostapd_hidl_deinit`, and a failing `hostapd_hidl_init`
through it, change no field other than `hidl_service_name`, which they release
and set to null. -/
theorem interfaces_only_name_released (cfg : Config) (env : InitEnv) (s : ModState)
    (interfaces : hapd_interfaces) :
    ((hostapd_hidl_init cfg env s interfaces).ret = 0 →
      (hostapd_hidl_init cfg env s interfaces).interfaces = interfaces) ∧
    ((hostapd_hidl_init cfg env s interfaces).ret ≠ 0 →
      (hostapd_hidl_init cfg env s interfaces).interfaces =
        { interfaces with hidl_service_name := none } ∧
      Event.os_free interfaces.hidl_service_name ∈
        (hostapd_hidl_init cfg env s interfaces).trace) ∧
    (hostapd_hidl_deinit cfg s interfaces).2.1 =
      { interfaces with hidl_service_name := none } ∧
    Event.os_free interfaces.hidl_service_name ∈ (hostapd_hidl_deinit cfg s interfaces).2.2 ∧
    (hostapd_hidl_init cfg env s interfaces).interfaces.others = interfaces.others ∧
    (hostapd_hidl_deinit cfg s interfaces).2.1.others = interfaces.others := by
  have hd := deinit_interfaces cfg s interfaces
  by_cases h : InitOk cfg env s interfaces
  · obtain ⟨h0, _, hi⟩ := init_ok cfg env s interfaces h
    refine ⟨fun _ => hi, fun hne => absurd h0 hne, hd, ?_, by rw [hi], by rw [hd]⟩
    rw [deinit_trace]
    simp
  · obtain ⟨h1, _, hi⟩ := init_fail cfg env s interfaces h
    refine ⟨fun h0 => ?_, fun _ => ⟨hi, ?_⟩, hd, ?_, by rw [hi], by rw [hd]⟩
    · rw [h1] at h0
      exact absurd h0 (by decide)
    · have hne : (hostapd_hidl_init cfg env s interfaces).ret ≠ 0 := by
        rw [h1]
        decide
      exact (init_fail_suffix cfg env s interfaces hne).subset (by simp)
    · rw [deinit_trace]
      simp

theorem interfaces_only_name_released_witness :
    (hostapd_hidl_init cfgFull envAllOk ModState.initial tableNamed).interfaces = tableNamed ∧
    (hostapd_hidl_init cfgFull envEloopFails ModState.initial tableNamed).interfaces =
      tableDefault :=
  ⟨(interfaces_only_name_released cfgFull envAllOk ModState.initial tableNamed).1 (by decide),
   ((interfaces_only_name_released cfgFull envEloopFails ModState.initial tableNamed).2.1
      (by decide)).1⟩

/-! ## Descriptor failures -/

/-- C8: if `setupPolling` leaves `hidl_fd < 0`, the calls of
`hostapd_hidl_init` are those up to `setupPolling` followed by those of the
teardown: no `eloop_register_read_sock`, no construction of a service object
and no `registerAsService` occurs.  If the descriptor is valid and
`eloop_register_read_sock` answers `< 0`, the calls are those up to
`eloop_register_read_sock` followed by those of the teardown: no construction
and no `registerAsService` occurs.  In both cases the calls the teardown makes
into the event loop and the binder runtime are `eloop_unregister_read_sock` on
the current `hidl_fd`, then `IPCThreadState::shutdown`. -/
theorem descriptor_failure_aborts_before_publication (cfg : Config) (env : InitEnv)
    (s : ModState) (interfaces : hapd_interfaces) :
    (env.setupPolling s.hidl_fd < 0 →
      (∀ e ∈ (hostapd_hidl_init cfg env s interfaces).trace,
        e.isEloopRegister = false ∧ e.isConstruct = false ∧ e.isRegisterAsService = false) ∧
      (hostapd_hidl_init cfg env s interfaces).trace =
        init_prologue cfg env s ++
          (hostapd_hidl_deinit cfg { s with hidl_fd := env.setupPolling s.hidl_fd }
            interfaces).2.2 ∧
      (init_prologue cfg env s).getLast? = some (Event.setupPolling s.hidl_fd) ∧
      (hostapd_hidl_init cfg env s interfaces).trace.filter Event.isRuntimeCall =
        (if cfg.ARCH_ARM_32 then
          [Event.initWithMmapSize (getHWBinderMmapSize env.property_get_int32)] else []) ++
        [ Event.disableBackgroundScheduling true,
          Event.setupPolling s.hidl_fd,
          Event.eloop_unregister_read_sock (env.setupPolling s.hidl_fd),
          Event.shutdown ]) ∧
    (0 ≤ env.setupPolling s.hidl_fd → env.eloop_register_read_sock < 0 →
      (∀ e ∈ (hostapd_hidl_init cfg env s interfaces).trace,
        e.isConstruct = false ∧ e.isRegisterAsService = false) ∧
      (hostapd_hidl_init cfg env s interfaces).trace =
        init_prologue cfg env s ++
          [ Event.wpa_printf .MSG_INFO "Processing hidl events on FD %d"
              [.int (env.setupPolling s.hidl_fd)],
            Event.eloop_register_read_sock (env.setupPolling s.hidl_fd) ] ++
          (hostapd_hidl_deinit cfg { s with hidl_fd := env.setupPolling s.hidl_fd }
            interfaces).2.2 ∧
      (hostapd_hidl_init cfg env s interfaces).trace.filter Event.isRuntimeCall =
        (if cfg.ARCH_ARM_32 then
          [Event.initWithMmapSize (getHWBinderMmapSize env.property_get_int32)] else []) ++
        [ Event.disableBackgroundScheduling true,
          Event.setupPolling s.hidl_fd,
          Event.eloop_register_read_sock (env.setupPolling s.hidl_fd),
          Event.eloop_unregister_read_sock (env.setupPolling s.hidl_fd),
          Event.shutdown ]) ∧
    (hostapd_hidl_deinit cfg { s with hidl_fd := env.setupPolling s.hidl_fd }
        interfaces).2.2.filter Event.isRuntimeCall =
      [ Event.eloop_unregister_read_sock (env.setupPolling s.hidl_fd), Event.shutdown ] := by
  refine ⟨fun h1 => ?_, fun h1 h2 => ?_, ?_⟩
  · have ht : (hostapd_hidl_init cfg env s interfaces).trace =
        init_prologue cfg env s ++
          (hostapd_hidl_deinit cfg { s with hidl_fd := env.setupPolling s.hidl_fd }
            interfaces).2.2 := by
      unfold hostapd_hidl_init
      simp only [if_pos h1]
      rfl
    refine ⟨?_, ht, ?_, ?_⟩
    · rw [ht, deinit_trace]
      unfold init_prologue
      cases cfg.ARCH_ARM_32 <;>
      simp [Event.isEloopRegister, Event.isConstruct, Event.isRegisterAsService,
        Event.isNewHostapd, Event.isNewHostapdVendor, Event.isStdRegister,
        Event.isVendorRegister]
    · unfold init_prologue
      cases cfg.ARCH_ARM_32 <;> rfl
    · rw [ht, deinit_trace]
      unfold init_prologue
      cases cfg.ARCH_ARM_32 <;> rfl
  · have ht : (hostapd_hidl_init cfg env s interfaces).trace =
        init_prologue cfg env s ++
          [ Event.wpa_printf .MSG_INFO "Processing hidl events on FD %d"
              [.int (env.setupPolling s.hidl_fd)],
            Event.eloop_register_read_sock (env.setupPolling s.hidl_fd) ] ++
          (hostapd_hidl_deinit cfg { s with hidl_fd := env.setupPolling s.hidl_fd }
            interfaces).2.2 := by
      unfold hostapd_hidl_init
      simp only [if_neg (not_lt.mpr h1), if_pos h2]
      rfl
    refine ⟨?_, ht, ?_⟩
    · rw [ht, deinit_trace]
      unfold init_prologue
      cases cfg.ARCH_ARM_32 <;>
      simp [Event.isConstruct, Event.isRegisterAsService,
        Event.isNewHostapd, Event.isNewHostapdVendor, Event.isStdRegister,
        Event.isVendorRegister]
    · rw [ht, deinit_trace]
      unfold init_prologue
      cases cfg.ARCH_ARM_32 <;> rfl
  · rw [deinit_trace]
    rfl

theorem descriptor_failure_aborts_before_publication_witness :
    (hostapd_hidl_init cfgFull envNoFd ModState.initial tableNamed).trace.filter
        Event.isRuntimeCall =
      [ Event.initWithMmapSize 4096,
        Event.disableBackgroundScheduling true,
        Event.setupPolling (-1),
        Event.eloop_unregister_read_sock (-1),
        Event.shutdown ] ∧
    (hostapd_hidl_init cfgFull envEloopFails ModState.initial tableNamed).trace.filter
        Event.isRuntimeCall =
      [ Event.initWithMmapSize 4096,
        Event.disableBackgroundScheduling true,
        Event.setupPolling (-1),
        Event.eloop_register_read_sock 7,
        Event.eloop_unregister_read_sock 7,
        Event.shutdown ] :=
  ⟨((descriptor_failure_aborts_before_publication cfgFull envNoFd ModState.initial
      tableNamed).1 (by decide)).2.2.2,
   ((descriptor_failure_aborts_before_publication cfgFull envEloopFails ModState.initial
      tableNamed).2.1 (by decide) (by decide)).2.2⟩

/-! ## Invariant of the globals -/

theorem consistent_initial (cfg : Config) :
    Consistent cfg (ModState.initial, Lifecycle.never) := by
  refine ⟨fun h => ?_, fun _ => ⟨rfl, rfl, rfl⟩, fun _ => rfl⟩
  cases h

theorem consistent_step (cfg : Config) (sl : ModState × Lifecycle) (c : Call)
    (h : Consistent cfg sl) :
    Consistent cfg (stepState cfg sl.1 c, stepLifecycle cfg sl.1 sl.2 c) := by
  obtain ⟨s, l⟩ := sl
  obtain ⟨ha, hb, hc⟩ := h
  have hvs : cfg.CONFIG_USE_VENDOR_HIDL = false → s.vendor_service = none := hc
  cases c with
  | init env interfaces =>
    simp only [stepState, stepLifecycle]
    by_cases hok : InitOk cfg env s interfaces
    · obtain ⟨h0, hs, _⟩ := init_ok cfg env s interfaces hok
      obtain ⟨h1, _, h3, _, h5⟩ := hok
      refine ⟨fun _ => ?_, fun hne => ?_, fun hv => ?_⟩
      · rw [hs]
        refine ⟨h1, h3, fun hv => ?_⟩
        simp only [hv, if_true]
        exact (h5 hv).1
      · rw [h0] at hne
        exact absurd rfl hne
      · rw [hs]
        simp only [hv]
        exact hvs hv
    · obtain ⟨h1, hs, _⟩ := init_fail cfg env s interfaces hok
      have hvn : (if cfg.CONFIG_USE_VENDOR_HIDL = true then none else s.vendor_service)
          = none := by
        cases hv : cfg.CONFIG_USE_VENDOR_HIDL
        · simpa using hvs hv
        · simp
      refine ⟨fun h0 => ?_, fun _ => ?_, fun _ => ?_⟩
      · rw [h1] at h0
        exact absurd (Lifecycle.initReturned.inj h0) (by decide)
      · rw [hs]
        exact ⟨rfl, rfl, hvn⟩
      · rw [hs]
        exact hvn
  | deinit interfaces =>
    simp only [stepState, stepLifecycle, deinit_state]
    have hvn : (if cfg.CONFIG_USE_VENDOR_HIDL = true then none else s.vendor_service)
        = none := by
      cases hv : cfg.CONFIG_USE_VENDOR_HIDL
      · simpa using hvs hv
      · simp
    refine ⟨fun h0 => ?_, fun _ => ⟨rfl, rfl, hvn⟩, fun _ => hvn⟩
    cases h0
  | sta_connected env n addr iface =>
    have hs : (notify_hidl_sta_connected env s n addr iface).2.1 = s := by
      unfold notify_hidl_sta_connected
      cases s.vendor_service <;> rfl
    simp only [stepState, stepLifecycle, hs]
    exact ⟨ha, hb, hc⟩
  | sta_disconnected env addr iface =>
    have hs : (notify_hidl_sta_disconnected env s addr iface).2.1 = s := by
      unfold notify_hidl_sta_disconnected
      cases s.vendor_service <;> rfl
    simp only [stepState, stepLifecycle, hs]
    exact ⟨ha, hb, hc⟩

theorem consistent_runFrom (cfg : Config) (calls : List Call) :
    ∀ sl : ModState × Lifecycle, Consistent cfg sl → Consistent cfg (runFrom cfg sl calls) := by
  induction calls with
  | nil => intro sl h; exact h
  | cons c cs ih =>
    intro sl h
    exact ih _ (consistent_step cfg sl c h)

/-- C9: after any sequence of completed `hostapd_hidl_init`,
`hostapd_hidl_deinit` and `notify_hidl_sta_*` calls from the initial globals,
`hidl_fd >= 0` if and only if the standard handle is non-null, under
`CONFIG_USE_VENDOR_HIDL` the standard handle is non-null if and only if the
vendor handle is non-null, and `hidl_fd >= 0` exactly when the most recent
`hostapd_hidl_init` / `hostapd_hidl_deinit` call was a `hostapd_hidl_init`
that returned 0. -/
theorem module_state_invariant (cfg : Config) (calls : List Call) :
    (0 ≤ (run cfg calls).1.hidl_fd ↔ (run cfg calls).1.service ≠ none) ∧
    (cfg.CONFIG_USE_VENDOR_HIDL = true →
      ((run cfg calls).1.service ≠ none ↔ (run cfg calls).1.vendor_service ≠ none)) ∧
    (0 ≤ (run cfg calls).1.hidl_fd ↔ (run cfg calls).2 = Lifecycle.initReturned 0) := by
  obtain ⟨ha, hb, _⟩ := consistent_runFrom cfg calls _ (consistent_initial cfg)
  change (_ → _) at ha
  change (_ → _) at hb
  unfold run
  generalize runFrom cfg (ModState.initial, Lifecycle.never) calls = sl at ha hb ⊢
  by_cases hl : sl.2 = Lifecycle.initReturned 0
  · obtain ⟨h1, h2, h3⟩ := ha hl
    exact ⟨⟨fun _ => h2, fun _ => h1⟩, fun hv => ⟨fun _ => h3 hv, fun _ => h2⟩,
      ⟨fun _ => hl, fun _ => h1⟩⟩
  · obtain ⟨h1, h2, h3⟩ := hb hl
    have hfd : ¬ (0 ≤ sl.1.hidl_fd) := by
      rw [h1]
      decide
    refine ⟨⟨fun h => absurd h hfd, fun h => absurd h2 h⟩,
      fun _ => ⟨fun h => absurd h2 h, fun h => absurd h3 h⟩,
      ⟨fun h => absurd h hfd, fun h => absurd h hl⟩⟩

theorem module_state_invariant_witness :
    (run cfgFull sampleCalls).1 = ModState.initial ∧
    ((run cfgFull sampleCalls).1.service ≠ none ↔
      (run cfgFull sampleCalls).1.vendor_service ≠ none) ∧
    (run cfgFull (sampleCalls.take 2)).1 = stateUp ∧
    (0 ≤ (run cfgFull (sampleCalls.take 2)).1.hidl_fd ↔
      (run cfgFull (sampleCalls.take 2)).2 = Lifecycle.initReturned 0) :=
  ⟨by decide, (module_state_invariant cfgFull sampleCalls).2.1 rfl, by decide,
    (module_state_invariant cfgFull (sampleCalls.take 2)).2.2⟩

/-! ## Size of the binder mapping on 32-bit ARM -/

/-- C10, as stated, fails: 4194304 is an `int32_t` value, and for it
`getHWBinderMmapSize` returns 0 (1024 * 2^22 wraps to 0 in 32-bit `size_t`),
which is not a non-zero multiple of 1024. -/
theorem mmap_size_zero_at_4194304 :
    (-2 ^ 31 ≤ (4194304 : Int) ∧ (4194304 : Int) < 2 ^ 31) ∧
    getHWBinderMmapSize 4194304 = 0 := by
  decide

/-- C10, amended: under `ARCH_ARM_32`, for every `int32_t` value `p` returned
by `property_get_int32`, `getHWBinderMmapSize` returns a multiple of 1024: 4096
when `p` is 0, and otherwise `1024 * p` in `size_t` arithmetic (`p` converted
to unsigned 32 bit, product modulo 2^32); the result is non-zero exactly when
`p` is 0 or `p` is not a multiple of 2^22. -/
theorem mmap_size_multiple_of_1024 (p : Int) (hlo : -2 ^ 31 ≤ p) (hhi : p < 2 ^ 31) :
    1024 ∣ getHWBinderMmapSize p ∧
    (p = 0 → getHWBinderMmapSize p = 4096) ∧
    (p ≠ 0 → getHWBinderMmapSize p = (1024 * (p % 2 ^ 32).toNat) % 2 ^ 32) ∧
    (getHWBinderMmapSize p ≠ 0 ↔ (p = 0 ∨ ¬ (4194304 : Int) ∣ p)) := by
  have hlo2 : -2147483648 ≤ p := by
    have := hlo
    norm_num at this
    exact this
  have hhi2 : p < 2147483648 := by
    have := hhi
    norm_num at this
    exact this
  unfold getHWBinderMmapSize SIZE_T_MOD DEFAULT_WIFISUPP_HW_BINDER_SIZE_KB
  simp only [show (2 : Int) ^ 32 = 4294967296 by norm_num,
    show (2 : Nat) ^ 32 = 4294967296 by norm_num, Nat.cast_ofNat]
  generalize hv : (p % 4294967296).toNat = v
  have hvInt : (v : Int) = p % 4294967296 := by omega
  by_cases hv0 : v = 0
  · have hp : p = 0 := by omega
    simp only [hv0, if_true]
    refine ⟨by decide, fun _ => by decide, fun h => absurd hp h, ?_⟩
    constructor
    · intro _
      exact Or.inl hp
    · intro _
      decide
  · have hp : p ≠ 0 := by
      intro h
      subst h
      simp at hvInt
      exact hv0 hvInt
    simp only [if_neg hv0]
    refine ⟨by omega, fun h => absurd h hp, fun _ => trivial, ?_⟩
    constructor
    · intro h
      right
      omega
    · rintro (h | h)
      · exact absurd h hp
      · omega

theorem mmap_size_multiple_of_1024_witness :
    1024 ∣ getHWBinderMmapSize (-1) ∧ getHWBinderMmapSize (-1) = 4294966272 ∧
    getHWBinderMmapSize 0 = 4096 :=
  ⟨(mmap_size_multiple_of_1024 (-1) (by decide) (by decide)).1,
   (mmap_size_multiple_of_1024 (-1) (by decide) (by decide)).2.2.1 (by decide),
   (mmap_size_multiple_of_1024 0 (by decide) (by decide)).2.1 rfl⟩

end HostapdHidl
